import Mathlib

/-!
# Verification of the KursusKu backend (`src/server.js`)

A shallow embedding of the Express handlers in `src/server.js`.
Each request handler becomes a pure Lean function from its inputs
(request fields, the resolved principal, and the results or state of the
external Supabase store) to an HTTP response, plus the updated store
state where the handler writes.  External collaborators (the Supabase
query builder, the identity service, pdfkit) are modelled at the
granularity the handlers observe: query results arrive as values or
errors, and pdfkit is a sink of drawing operations serialized to a
non-empty byte stream beginning with the PDF header.
-/

namespace KursusKu

/-- A course row as stored in the `courses` table.  `price` is a number
(modelled as `Int`; the handlers only ever store integers produced by
`Number(price) || 0`).  `created_at` is the creation timestamp assigned
by the store. -/
structure Course where
  id : Nat
  title : Option String
  description : Option String
  level : Option String
  price : Int
  image_url : Option String
  created_at : Nat
  deriving Repr, DecidableEq

/-- An enrollment row of the `enrollments` table: a course id, a user
email and a free-text status string. -/
structure Enrollment where
  id : Nat
  course_id : Nat
  user_email : String
  status : String
  deriving Repr, DecidableEq

/-- The joined view `select("id, user_email, status, courses(title)")`
used by the enrollment listings and the certificate route. -/
structure EnrollView where
  course_id : Nat
  course_title : Option String
  status : String
  deriving Repr, DecidableEq

/-- The principal resolved by the identity service
(`supabasePublic.auth.getUser`): an email and the optional
`user_metadata.full_name`. -/
structure User where
  email : String
  full_name : Option String
  deriving Repr, DecidableEq

/-- Response bodies the handlers produce: a `{message}` JSON object,
a JSON data payload, or a binary PDF stream. -/
inductive Body where
  | jsonMessage (m : String)
  | jsonCourses (cs : List Course)
  | jsonEnrollViews (vs : List EnrollView)
  | pdf (bytes : List Nat)
  deriving Repr, DecidableEq

/-- An HTTP response: status code, content type and body. -/
structure Response where
  status : Nat
  contentType : String
  body : Body
  deriving Repr, DecidableEq

/-- Content type produced by Express `res.json`. -/
def jsonCT : String := "application/json"

/-- Content type set explicitly by the certificate route. -/
def pdfCT : String := "application/pdf"

/-! ## JavaScript string builtins

The handlers use `String.prototype.trim`, `toLowerCase`, `split(",")`,
`startsWith` and `slice`.  They are modelled over the character list of
a string (restricted to ASCII case folding and ASCII whitespace, which
is all the handlers rely on). -/

/-- ASCII whitespace, for the model of `trim()`. -/
def jsWhitespace (c : Char) : Bool :=
  c == ' ' || c == '\t' || c == '\n' || c == '\r'

/-- Modelled from the JavaScript `trim()` builtin: strip leading and
trailing whitespace. -/
def jsTrim (s : String) : String :=
  ⟨((s.data.dropWhile jsWhitespace).reverse.dropWhile jsWhitespace).reverse⟩

/-- Modelled from the JavaScript `toLowerCase()` builtin (ASCII). -/
def jsToLower (s : String) : String :=
  ⟨s.data.map Char.toLower⟩

/-- Split a character list at commas, accumulating the current piece. -/
def jsSplitCommaAux : List Char → List Char → List String
  | [], acc => [⟨acc.reverse⟩]
  | c :: cs, acc =>
    if c = ',' then (⟨acc.reverse⟩ : String) :: jsSplitCommaAux cs []
    else jsSplitCommaAux cs (c :: acc)

/-- Modelled from the JavaScript `split(",")` builtin: `""` splits to
`[""]`, and every comma separates two (possibly empty) pieces. -/
def jsSplitComma (s : String) : List String :=
  jsSplitCommaAux s.data []

/-! ## JavaScript value coercion

`POST /api/courses` stores `price: Number(price) || 0`.  We model the
JSON scalars a request body can carry and the `Number()` builtin on
them.  `none` stands for `NaN`. -/

/-- A JSON scalar as it arrives in a request body. -/
inductive JsValue where
  | str (s : String)
  | num (n : Int)
  | nan
  | boolean (b : Bool)
  | null
  | undefined
  deriving Repr, DecidableEq

/-- Digits of a decimal literal to a natural number; `none` when the
list is empty or holds a non-digit. -/
def digitsToNat : List Char → Option Nat
  | [] => none
  | cs => cs.foldlM (fun acc c => if c.isDigit then some (acc * 10 + (c.toNat - 48)) else none) 0

/-- Modelled from the semantics of the JavaScript `Number()` builtin on
strings, restricted to optionally signed decimal integer literals (the
fragment the handlers can be exercised on): surrounding whitespace is
ignored, the empty (or all-whitespace) string converts to `0`, and
anything else that is not a signed digit string is `NaN` (`none`). -/
def parseJsNumber (s : String) : Option Int :=
  let t := jsTrim s
  if t = "" then some 0
  else
    match t.data with
    | '-' :: rest => (digitsToNat rest).map (fun n => -(n : Int))
    | '+' :: rest => (digitsToNat rest).map (fun n => (n : Int))
    | cs => (digitsToNat cs).map (fun n => (n : Int))

/-- Modelled from the semantics of the JavaScript `Number()` builtin:
numbers pass through, `NaN` stays `NaN`, strings are parsed, `null`
is `0`, `undefined` is `NaN`, booleans are `1`/`0`. -/
def jsToNumber : JsValue → Option Int
  | .str s => parseJsNumber s
  | .num n => some n
  | .nan => none
  | .boolean b => some (if b then 1 else 0)
  | .null => some 0
  | .undefined => none

/-- `Number(price) || 0`: the price actually stored.  `NaN` is falsy,
so it becomes `0`; `0` itself stays `0` either way. -/
def numberOr0 (v : JsValue) : Int :=
  match jsToNumber v with
  | none => 0
  | some n => n

/-! ## Auth middleware (`getBearerToken`, `requireAuth`, `requireAdmin`) -/

/-- `getBearerToken(req)`: read the `authorization` header (absent
headers read as `""`), return `null` unless it starts with `"Bearer "`,
else the rest of the header. -/
def getBearerToken (authorization : Option String) : Option String :=
  let h := authorization.getD ""
  if "Bearer ".data.isPrefixOf h.data then some ⟨h.data.drop 7⟩ else none

/-- `requireAuth`: 401 `"Missing token"` when no (or an empty, hence
falsy) bearer token is present; otherwise ask the identity service
(`getUser`, `none` meaning the service rejected the token) and answer
401 `"Invalid token"` on rejection.  `Except.error` means the response
was sent and `next()` was never called, so the guarded handler body is
not reached; `Except.ok u` means `req.user = u` and control passed on. -/
def requireAuth (authorization : Option String) (getUser : String → Option User) :
    Except Response User :=
  match getBearerToken authorization with
  | none => .error ⟨401, jsonCT, .jsonMessage "Missing token"⟩
  | some token =>
    if token = "" then .error ⟨401, jsonCT, .jsonMessage "Missing token"⟩
    else
      match getUser token with
      | none => .error ⟨401, jsonCT, .jsonMessage "Invalid token"⟩
      | some u => .ok u

/-- The admin allowlist parsed from the `ADMIN_EMAILS` environment
variable: split on commas, each entry trimmed and lower-cased. -/
def adminAllowlist (adminEmails : String) : List String :=
  (jsSplitComma adminEmails).map (fun e => jsToLower (jsTrim e))

/-- `requireAdmin`: 403 `"Admin only"` unless the principal's
lower-cased email is in the allowlist.  A pure function of the
environment string and the email. -/
def requireAdmin (adminEmails : String) (userEmail : String) : Except Response Unit :=
  if (adminAllowlist adminEmails).contains (jsToLower userEmail) then .ok ()
  else .error ⟨403, jsonCT, .jsonMessage "Admin only"⟩

/-! ## Supabase query-builder results

The store is external; the handlers observe it through query results.
`.single()` yields exactly one row or an error; the `data` field of
`.maybeSingle()` is the row when there is exactly one, and `null`
otherwise (no row, or the multiple-row error — the enroll handler
destructures only `data` and never reads the error). -/

/-- Result of `.single()` on a row set. -/
def dbSingle : List α → Except String α
  | [a] => .ok a
  | _ => .error "JSON object requested, multiple (or no) rows returned"

/-- The `data` field observed after `.maybeSingle()` on a row set. -/
def maybeSingleData : List α → Option α
  | [a] => some a
  | _ => none

/-! ## Courses -/

/-- The `created_at` descending order requested by
`.order("created_at", { ascending: false })`. -/
def createdDesc (a b : Course) : Prop := b.created_at ≤ a.created_at

instance : DecidableRel createdDesc :=
  fun a b => inferInstanceAs (Decidable (b.created_at ≤ a.created_at))

instance : IsTotal Course createdDesc :=
  ⟨fun a b => Nat.le_total b.created_at a.created_at⟩

instance : IsTrans Course createdDesc :=
  ⟨fun _ _ _ h1 h2 => le_trans h2 h1⟩

/-- `GET /api/courses`: the store evaluates the select with the
descending `created_at` ordering (modelled as a stable sort of the
table) and the handler answers 500 with the error message on a query
error, else the ordered rows as JSON. -/
def getCourses (db : List Course) (queryError : Option String) : Response :=
  match queryError with
  | some msg => ⟨500, jsonCT, .jsonMessage msg⟩
  | none => ⟨200, jsonCT, .jsonCourses (List.insertionSort createdDesc db)⟩

/-- The fields of a `POST /api/courses` request body. -/
structure CourseBody where
  title : Option String
  description : Option String
  level : Option String
  price : JsValue
  image_url : Option String
  deriving Repr, DecidableEq

/-- The record a `POST /api/courses` insert sends to the store
(before the store assigns `id` and `created_at`). -/
structure CourseRecord where
  title : Option String
  description : Option String
  level : Option String
  price : Int
  image_url : Option String
  deriving Repr, DecidableEq

/-- `POST /api/courses`: the inserted record — fields passed through,
`price: Number(price) || 0`, `image_url: image_url || null` (the empty
string is falsy, hence becomes `null`). -/
def postCoursesInsert (b : CourseBody) : CourseRecord :=
  { title := b.title
    description := b.description
    level := b.level
    price := numberOr0 b.price
    image_url :=
      match b.image_url with
      | some s => if s = "" then none else some s
      | none => none }

/-! ## Enrollments -/

/-- `POST /api/enroll`: look for an existing `(course_id, user_email)`
row via `.maybeSingle()`; answer 400 `"Sudah terdaftar"` if one is
found, else insert a row with status `"terdaftar"` (the store assigns
`newId`) and answer `"Pendaftaran berhasil"`.  Returns the response and
the resulting `enrollments` table.  The insert is modelled error-free
(an insert error would answer 500 and is outside the claims, which
assume no database errors). -/
def postEnroll (db : List Enrollment) (email : String) (course_id : Nat) (newId : Nat) :
    Response × List Enrollment :=
  match maybeSingleData (db.filter fun e => e.course_id == course_id && e.user_email == email) with
  | some _ => (⟨400, jsonCT, .jsonMessage "Sudah terdaftar"⟩, db)
  | none =>
    (⟨200, jsonCT, .jsonMessage "Pendaftaran berhasil"⟩,
     db ++ [⟨newId, course_id, email, "terdaftar"⟩])

/-- `PUT /api/enrollments/:id`: send the update `{ status }` to the
store and answer 200 `{message:"Status updated"}` without reading the
store's result.  `updateFails` models a store-side error: the table is
then unchanged, but the handler never checks it, so the response is the
same either way. -/
def putEnrollmentStatus (db : List Enrollment) (idParam : Nat) (status : String)
    (updateFails : Bool) : Response × List Enrollment :=
  let db' :=
    if updateFails then db
    else db.map fun e => if e.id == idParam then { e with status := status } else e
  (⟨200, jsonCT, .jsonMessage "Status updated"⟩, db')

/-! ## Certificate (`GET /api/certificates/:courseId`) -/

/-- `nama`: `req.user.user_metadata?.full_name?.trim() || req.user.email
|| "Peserta"` — the trimmed display name when present and non-empty,
else the email when non-empty, else the placeholder. -/
def certName (u : User) : String :=
  match u.full_name with
  | some n =>
    if jsTrim n = "" then (if u.email = "" then "Peserta" else u.email) else jsTrim n
  | none => if u.email = "" then "Peserta" else u.email

/-- `enrollment.courses?.title || "Kursus"`. -/
def courseTitleOr (t : Option String) : String :=
  match t with
  | some s => if s = "" then "Kursus" else s
  | none => "Kursus"

/-- `` `KK-${Date.now().toString().slice(-6)}` ``: the last six digits
of the current millisecond timestamp. -/
def nomorSertifikat (nowMs : Nat) : String :=
  let s := toString nowMs
  "KK-" ++ ⟨s.data.drop (s.data.length - 6)⟩

/-- The pdfkit drawing calls the certificate route issues. -/
inductive PdfOp where
  | strokeRect (lineWidth x y w h : Nat) (color : String)
  | strokeLine (x1 y1 x2 y2 : Nat) (color : String)
  | text (font : String) (size : Nat) (color : String) (s : String)
  | moveDown (n : Nat)
  deriving Repr, DecidableEq

/-- The fixed-layout certificate: border rectangles, header divider,
centered title/subtitle, recipient, course title, date, certificate
number and footer, in the order the route draws them. -/
def certificateOps (nama courseTitle tanggal nomor : String) : List PdfOp :=
  [ .strokeRect 3 20 20 555 802 "#1E3A8A"
  , .strokeRect 1 30 30 535 782 "#CBD5E1"
  , .text "Helvetica-Bold" 28 "#1E3A8A" "SERTIFIKAT"
  , .text "Helvetica-Bold" 20 "#000000" "KELULUSAN"
  , .moveDown 1
  , .strokeLine 150 200 450 200 "#1E3A8A"
  , .moveDown 3
  , .text "Helvetica" 12 "#000000" "Diberikan kepada:"
  , .moveDown 1
  , .text "Helvetica-Bold" 22 "#000000" nama
  , .moveDown 2
  , .text "Helvetica" 12 "#000000" "Atas keberhasilannya menyelesaikan kursus:"
  , .moveDown 1
  , .text "Helvetica-Bold" 18 "#000000" courseTitle
  , .moveDown 3
  , .text "Helvetica" 12 "#000000" ("Tanggal: " ++ tanggal)
  , .moveDown 4
  , .text "Helvetica" 10 "#374151" ("Nomor Sertifikat: " ++ nomor)
  , .moveDown 1
  , .text "Helvetica" 10 "#374151" "KursusKu — Platform Pembelajaran Bahasa Indonesia" ]

/-- A string as a byte-stream fragment (code points; the exact byte
encoding is pdfkit's and irrelevant to the claims). -/
def strBytes (s : String) : List Nat := s.data.map Char.toNat

/-- Modelled from pdfkit: serialize one drawing operation. -/
def pdfOpBytes : PdfOp → List Nat
  | .strokeRect lw x y w h c => strBytes (s!"rect {lw} {x} {y} {w} {h} {c}\n")
  | .strokeLine x1 y1 x2 y2 c => strBytes (s!"line {x1} {y1} {x2} {y2} {c}\n")
  | .text f sz c s => strBytes (s!"text {f} {sz} {c} {s}\n")
  | .moveDown n => strBytes (s!"movedown {n}\n")

/-- Modelled from pdfkit: the byte stream collected from the `data`
events and concatenated by `doc.end`.  Every pdfkit document begins
with the PDF header, so the stream is never empty. -/
def pdfRender (ops : List PdfOp) : List Nat :=
  strBytes "%PDF-1.3\n" ++ ops.foldr (fun op acc => pdfOpBytes op ++ acc) []

/-- The `status, courses(title)` lookup of the certificate route:
`.single()` over the rows matching the course id and email, joined with
the course title. -/
def certLookup (enrollments : List Enrollment) (courses : List Course)
    (courseId : Nat) (email : String) : Except String EnrollView :=
  (dbSingle (enrollments.filter fun e => e.course_id == courseId && e.user_email == email)).map
    (fun e =>
      ⟨e.course_id, (courses.find? fun c => c.id == e.course_id).bind (·.title), e.status⟩)

/-- The certificate handler applied to the lookup result: 403
`"Belum lulus"` when the lookup errored, returned no row, or the row's
status is not `"lulus"`; otherwise render and send the PDF inline. -/
def getCertificate (u : User) (lookup : Except String EnrollView)
    (tanggal : String) (nowMs : Nat) : Response :=
  match lookup with
  | .error _ => ⟨403, jsonCT, .jsonMessage "Belum lulus"⟩
  | .ok enrollment =>
    if enrollment.status ≠ "lulus" then ⟨403, jsonCT, .jsonMessage "Belum lulus"⟩
    else
      ⟨200, pdfCT,
        .pdf (pdfRender (certificateOps (certName u) (courseTitleOr enrollment.course_title)
          tanggal (nomorSertifikat nowMs)))⟩

/-- `GET /api/certificates/:courseId` end to end against a store state:
the handler applied to the live lookup. -/
def certificatesRoute (enrollments : List Enrollment) (courses : List Course)
    (u : User) (courseId : Nat) (tanggal : String) (nowMs : Nat) : Response :=
  getCertificate u (certLookup enrollments courses courseId u.email) tanggal nowMs

/-! ## Helper lemmas -/

theorem dbSingle_ok_eq {α : Type} {l : List α} {a : α} (h : dbSingle l = .ok a) : l = [a] := by
  match l with
  | [] => simp [dbSingle] at h
  | [x] => simp_all [dbSingle]
  | x :: y :: t => simp [dbSingle] at h

theorem maybeSingleData_eq_nil {α : Type} {l : List α} (h : maybeSingleData l = none)
    (hlen : l.length ≤ 1) : l = [] := by
  match l with
  | [] => rfl
  | [x] => simp [maybeSingleData] at h
  | x :: y :: t => simp [List.length_cons] at hlen

theorem pdfRender_ne_nil (ops : List PdfOp) : pdfRender ops ≠ [] := by
  intro h
  have hlen := congrArg List.length h
  rw [pdfRender, List.length_append] at hlen
  have h9 : (strBytes "%PDF-1.3\n").length = 9 := by decide
  rw [h9] at hlen
  simp only [List.length_nil] at hlen
  omega

/-! ## Claim theorems -/

/-- C3: for every request to an authenticated route, if the
authorization header carries no bearer token or the identity service
rejects the token, the response status is 401 and the handler body is
never reached (the gate returns `Except.error`, so `next()` is not
called). -/
theorem requireAuth_unauthenticated_401 (authorization : Option String)
    (getUser : String → Option User)
    (hrej : ∀ t, getBearerToken authorization = some t → getUser t = none) :
    ∃ r, requireAuth authorization getUser = .error r ∧ r.status = 401 := by
  unfold requireAuth
  cases h : getBearerToken authorization with
  | none => exact ⟨_, rfl, rfl⟩
  | some t =>
    by_cases ht : t = ""
    · subst ht
      refine ⟨⟨401, jsonCT, .jsonMessage "Missing token"⟩, ?_, rfl⟩
      simp
    · have hg := hrej t h
      refine ⟨⟨401, jsonCT, .jsonMessage "Invalid token"⟩, ?_, rfl⟩
      simp [ht, hg]

/-- Witness for C3: a syntactically well-formed bearer token that the
identity service rejects is answered with 401. -/
theorem requireAuth_unauthenticated_401_witness :
    ∃ r, requireAuth (some "Bearer tok") (fun _ => none) = .error r ∧ r.status = 401 :=
  requireAuth_unauthenticated_401 (some "Bearer tok") (fun _ => none) (fun _ _ => rfl)

/-- C4: the admin gate passes exactly when the principal's email,
compared case-insensitively, appears among the (trimmed) entries of the
configured allowlist; otherwise the response is 403 `"Admin only"`; and
the outcome depends on the email only through its lower-casing, so any
letter-casing of the email behaves the same.  The gate is a pure
function of the environment string and the email. -/
theorem requireAdmin_allowlist (adminEmails userEmail : String) :
    (requireAdmin adminEmails userEmail = .ok () ↔
      ∃ e ∈ (jsSplitComma adminEmails).map jsTrim, jsToLower e = jsToLower userEmail) ∧
    (∀ r, requireAdmin adminEmails userEmail = .error r →
      r.status = 403 ∧ r.body = .jsonMessage "Admin only") ∧
    (∀ email', jsToLower userEmail = jsToLower email' →
      requireAdmin adminEmails userEmail = requireAdmin adminEmails email') := by
  refine ⟨?_, ?_, ?_⟩
  · unfold requireAdmin
    by_cases h : (adminAllowlist adminEmails).contains (jsToLower userEmail)
    · rw [if_pos h]
      constructor
      · intro _
        have hm : jsToLower userEmail ∈ adminAllowlist adminEmails := by simpa using h
        rw [adminAllowlist] at hm
        obtain ⟨x, hx, hxe⟩ := List.mem_map.mp hm
        exact ⟨jsTrim x, List.mem_map.mpr ⟨x, hx, rfl⟩, hxe⟩
      · intro _; rfl
    · rw [if_neg h]
      constructor
      · intro heq
        exact absurd heq (by simp)
      · rintro ⟨e, he, heq⟩
        exfalso
        apply h
        obtain ⟨x, hx, rfl⟩ := List.mem_map.mp he
        have hmem : jsToLower userEmail ∈ adminAllowlist adminEmails := by
          rw [adminAllowlist]
          exact List.mem_map.mpr ⟨x, hx, heq⟩
        simpa using hmem
  · intro r hr
    unfold requireAdmin at hr
    by_cases h : (adminAllowlist adminEmails).contains (jsToLower userEmail)
    · rw [if_pos h] at hr
      exact absurd hr (by simp)
    · rw [if_neg h] at hr
      obtain rfl : (⟨403, jsonCT, .jsonMessage "Admin only"⟩ : Response) = r :=
        Except.error.inj hr
      exact ⟨rfl, rfl⟩
  · intro email' h
    unfold requireAdmin
    rw [h]

/-- Witness for C4: `aDmIn@x.CoM` passes against the allowlist entry
`" Admin@X.com "`; a non-listed email draws the 403 `"Admin only"`
response; and re-casing the email leaves the outcome unchanged. -/
theorem requireAdmin_allowlist_witness :
    requireAdmin " Admin@X.com ,b@y.com" "aDmIn@x.CoM" = .ok () ∧
    Response.status ⟨403, jsonCT, .jsonMessage "Admin only"⟩ = 403 ∧
    requireAdmin " Admin@X.com ,b@y.com" "aDmIn@x.CoM" =
      requireAdmin " Admin@X.com ,b@y.com" "admin@x.com" := by
  refine ⟨?_, ?_, ?_⟩
  · exact (requireAdmin_allowlist " Admin@X.com ,b@y.com" "aDmIn@x.CoM").1.mpr
      ⟨"Admin@X.com", by decide, by decide⟩
  · exact ((requireAdmin_allowlist " Admin@X.com ,b@y.com" "nobody@z.com").2.1
      ⟨403, jsonCT, .jsonMessage "Admin only"⟩ rfl).1
  · exact (requireAdmin_allowlist " Admin@X.com ,b@y.com" "aDmIn@x.CoM").2.2
      "admin@x.com" (by decide)

/-- C5 (counterexample to the claim as stated): a successful enroll on
an empty table inserts a row whose status is `"terdaftar"`, not
`"registered"` — no inserted row ever has status `"registered"`. -/
theorem enroll_registered_status_counterexample :
    (postEnroll [] "a@x.com" 5 1).1.status = 200 ∧
    (postEnroll [] "a@x.com" 5 1).2 = [⟨1, 5, "a@x.com", "terdaftar"⟩] ∧
    ∀ e ∈ (postEnroll [] "a@x.com" 5 1).2, e.status ≠ "registered" := by
  refine ⟨rfl, rfl, ?_⟩
  decide

/-- C5 (amended): every successful `POST /api/enroll` call inserts a
row with status `"terdaftar"` (the stored Indonesian for
"registered"). -/
theorem enroll_inserts_terdaftar (db : List Enrollment) (email : String) (cid newId : Nat)
    (h : (postEnroll db email cid newId).1.status = 200) :
    (postEnroll db email cid newId).2 = db ++ [⟨newId, cid, email, "terdaftar"⟩] := by
  cases hm : maybeSingleData (db.filter fun e => e.course_id == cid && e.user_email == email) with
  | some a => simp [postEnroll, hm] at h
  | none => simp [postEnroll, hm]

/-- Witness for C5's amended theorem at a concrete successful call. -/
theorem enroll_inserts_terdaftar_witness :
    (postEnroll [] "a@x.com" 5 1).2 = [] ++ [⟨1, 5, "a@x.com", "terdaftar"⟩] :=
  enroll_inserts_terdaftar [] "a@x.com" 5 1 rfl

/-- C6: when the request's price field does not parse as a number
(`Number(price)` is `NaN`), the stored course record has price `0`. -/
theorem course_price_nan_stored_zero (b : CourseBody) (h : jsToNumber b.price = none) :
    (postCoursesInsert b).price = 0 := by
  simp [postCoursesInsert, numberOr0, h]

/-- Witness for C6: creating `{title:"Bahasa A1", price:"abc"}` stores
price `0`. -/
theorem course_price_nan_stored_zero_witness :
    jsToNumber (JsValue.str "abc") = none ∧
    (postCoursesInsert ⟨some "Bahasa A1", none, none, .str "abc", none⟩).price = 0 :=
  ⟨rfl, course_price_nan_stored_zero ⟨some "Bahasa A1", none, none, .str "abc", none⟩ rfl⟩

/-- C7 (counterexample to the claim as stated): a supplied price of
`-5` is stored as `-5`, a negative number. -/
theorem course_price_nonneg_counterexample :
    (postCoursesInsert ⟨some "T", none, none, .num (-5), none⟩).price = -5 ∧
    ¬ (0 ≤ (postCoursesInsert ⟨some "T", none, none, .num (-5), none⟩).price) := by
  decide

/-- C7 (amended): the stored price is non-negative whenever the
supplied price does not parse as a negative number — the `|| 0`
default only replaces `NaN` (and `0`), so a supplied negative number is
stored as-is. -/
theorem course_price_nonneg_of_parsed_nonneg (b : CourseBody)
    (h : ∀ n, jsToNumber b.price = some n → 0 ≤ n) :
    0 ≤ (postCoursesInsert b).price := by
  cases hn : jsToNumber b.price with
  | none => simp [postCoursesInsert, numberOr0, hn]
  | some n => simpa [postCoursesInsert, numberOr0, hn] using h n hn

/-- Witness for C7's amended theorem at a parsable non-negative
price. -/
theorem course_price_nonneg_of_parsed_nonneg_witness :
    0 ≤ (postCoursesInsert ⟨some "Bahasa A1", none, none, .str "50000", none⟩).price :=
  course_price_nonneg_of_parsed_nonneg ⟨some "Bahasa A1", none, none, .str "50000", none⟩
    (fun n hn => by
      rw [show jsToNumber (JsValue.str "50000") = some 50000 from rfl] at hn
      injection hn with hn
      omega)

/-- C8: a successful `GET /api/courses` answers 200 with a list that
is a permutation of the whole `courses` table and is sorted by
`created_at` descending. -/
theorem getCourses_all_sorted_desc (db : List Course) :
    ∃ l, getCourses db none = ⟨200, jsonCT, .jsonCourses l⟩ ∧
      l.Perm db ∧ List.Sorted createdDesc l :=
  ⟨List.insertionSort createdDesc db, rfl, List.perm_insertionSort createdDesc db,
    List.sorted_insertionSort createdDesc db⟩

/-- C9: `PUT /api/enrollments/:id` answers 200
`{message:"Status updated"}` for every status string and even when the
store-side update fails (the handler never reads the update's error),
and when the update does go through the new status is stored verbatim,
unvalidated. -/
theorem putEnrollment_always_ok (db : List Enrollment) (idParam : Nat) (status : String)
    (updateFails : Bool) :
    (putEnrollmentStatus db idParam status updateFails).1 =
      ⟨200, jsonCT, .jsonMessage "Status updated"⟩ ∧
    (updateFails = false →
      ∀ e ∈ (putEnrollmentStatus db idParam status updateFails).2,
        e.id = idParam → e.status = status) := by
  constructor
  · rfl
  · intro hf e he hid
    subst hf
    simp only [putEnrollmentStatus, if_neg (by simp : ¬ (false : Bool) = true),
      List.mem_map] at he
    obtain ⟨x, _, hxe⟩ := he
    by_cases h : x.id = idParam
    · rw [← hxe]
      simp [h]
    · rw [← hxe] at hid
      simp [h] at hid

/-- Witness for C9: updating enrollment 1 to the arbitrary string
`"whatever"` answers 200 and stores the string verbatim; the same
response is produced when the store update fails. -/
theorem putEnrollment_always_ok_witness :
    (putEnrollmentStatus [⟨1, 5, "a@x.com", "terdaftar"⟩] 1 "whatever" false).1 =
      ⟨200, jsonCT, .jsonMessage "Status updated"⟩ ∧
    (⟨1, 5, "a@x.com", "whatever"⟩ : Enrollment).status = "whatever" ∧
    (putEnrollmentStatus [⟨1, 5, "a@x.com", "terdaftar"⟩] 1 "whatever" true).1 =
      ⟨200, jsonCT, .jsonMessage "Status updated"⟩ := by
  refine ⟨(putEnrollment_always_ok [⟨1, 5, "a@x.com", "terdaftar"⟩] 1 "whatever" false).1,
    ?_, (putEnrollment_always_ok [⟨1, 5, "a@x.com", "terdaftar"⟩] 1 "whatever" true).1⟩
  exact (putEnrollment_always_ok [⟨1, 5, "a@x.com", "terdaftar"⟩] 1 "whatever" false).2
    rfl ⟨1, 5, "a@x.com", "whatever"⟩ (by decide) rfl

/-- C10: when the certificate route's enrollment lookup itself fails,
the response is the same 403 `"Belum lulus"` as for an ineligible
enrollment — never a 500 — even if a `"lulus"` enrollment exists in
the store, so upstream failure and ineligibility are indistinguishable
to the caller. -/
theorem certificate_lookup_error_403 (u : User) (errMsg tanggal : String) (nowMs : Nat)
    (enrollments : List Enrollment) (courseId : Nat)
    (_hexists : ∃ e ∈ enrollments, e.course_id = courseId ∧ e.user_email = u.email ∧
      e.status = "lulus") :
    getCertificate u (.error errMsg) tanggal nowMs =
      ⟨403, jsonCT, .jsonMessage "Belum lulus"⟩ ∧
    (getCertificate u (.error errMsg) tanggal nowMs).status ≠ 500 ∧
    ∀ v : EnrollView, v.status ≠ "lulus" →
      getCertificate u (.error errMsg) tanggal nowMs =
        getCertificate u (.ok v) tanggal nowMs := by
  refine ⟨rfl, by simp [getCertificate], fun v hv => ?_⟩
  simp [getCertificate, hv]

/-- Witness for C10: with a `"lulus"` enrollment in the store, a
failed lookup still answers the 403 response, equal to the one an
unfinished enrollment draws. -/
theorem certificate_lookup_error_403_witness :
    getCertificate ⟨"a@x.com", none⟩ (.error "connection reset") "1 Januari 2026" 0 =
      ⟨403, jsonCT, .jsonMessage "Belum lulus"⟩ ∧
    (getCertificate ⟨"a@x.com", none⟩ (.error "connection reset") "1 Januari 2026" 0).status ≠
      500 ∧
    getCertificate ⟨"a@x.com", none⟩ (.error "connection reset") "1 Januari 2026" 0 =
      getCertificate ⟨"a@x.com", none⟩ (.ok ⟨5, none, "terdaftar"⟩) "1 Januari 2026" 0 := by
  have h := certificate_lookup_error_403 ⟨"a@x.com", none⟩ "connection reset"
    "1 Januari 2026" 0 [⟨1, 5, "a@x.com", "lulus"⟩] 5
    ⟨⟨1, 5, "a@x.com", "lulus"⟩, by decide, rfl, rfl, rfl⟩
  exact ⟨h.1, h.2.1, h.2.2 ⟨5, none, "terdaftar"⟩ (by decide)⟩

/-- C1 (counterexample to the claim as stated): an enrollment whose
status is literally `"passed"` is found by the lookup, yet the route
answers 403 with a JSON message and no PDF — the handler compares
against the stored string `"lulus"`, not `"passed"`. -/
theorem certificates_passed_status_counterexample :
    certLookup [⟨1, 5, "a@x.com", "passed"⟩] [] 5 "a@x.com" = .ok ⟨5, none, "passed"⟩ ∧
    certificatesRoute [⟨1, 5, "a@x.com", "passed"⟩] [] ⟨"a@x.com", none⟩ 5
      "1 Januari 2026" 0 = ⟨403, jsonCT, .jsonMessage "Belum lulus"⟩ :=
  ⟨rfl, rfl⟩

/-- C1 (amended, with `"lulus"` — the stored Indonesian status — in
place of the claim's `"passed"`): if no enrollment for the course and
the principal's email has status exactly `"lulus"`, the response is 403
with a JSON message and no PDF body; if such an enrollment exists and
the lookup succeeds, the response is `application/pdf` with a non-empty
binary body. -/
theorem certificates_eligibility (enrollments : List Enrollment) (courses : List Course)
    (u : User) (courseId : Nat) (tanggal : String) (nowMs : Nat) :
    ((¬ ∃ e ∈ enrollments, e.course_id = courseId ∧ e.user_email = u.email ∧
        e.status = "lulus") →
      certificatesRoute enrollments courses u courseId tanggal nowMs =
        ⟨403, jsonCT, .jsonMessage "Belum lulus"⟩) ∧
    (∀ v, (∃ e ∈ enrollments, e.course_id = courseId ∧ e.user_email = u.email ∧
        e.status = "lulus") →
      certLookup enrollments courses courseId u.email = .ok v →
      ∃ bytes, certificatesRoute enrollments courses u courseId tanggal nowMs =
        ⟨200, pdfCT, .pdf bytes⟩ ∧ bytes ≠ []) := by
  constructor
  · intro hno
    unfold certificatesRoute getCertificate certLookup
    cases h : dbSingle (enrollments.filter fun e =>
        e.course_id == courseId && e.user_email == u.email) with
    | error msg => rfl
    | ok e =>
      have hmem : e ∈ enrollments.filter fun e =>
          e.course_id == courseId && e.user_email == u.email := by
        rw [dbSingle_ok_eq h]
        exact List.mem_singleton_self e
      have hin : e ∈ enrollments := List.mem_of_mem_filter hmem
      have hpred := List.of_mem_filter hmem
      rw [Bool.and_eq_true, beq_iff_eq, beq_iff_eq] at hpred
      have hstat : ¬ e.status = "lulus" :=
        fun hs => hno ⟨e, hin, hpred.1, hpred.2, hs⟩
      simp [Except.map, hstat]
  · intro v hex hok
    obtain ⟨x, hx, hcid, hemail, hstat⟩ := hex
    unfold certLookup at hok
    cases h : dbSingle (enrollments.filter fun e =>
        e.course_id == courseId && e.user_email == u.email) with
    | error m =>
      rw [h] at hok
      simp [Except.map] at hok
    | ok e =>
      have hxmem : x ∈ enrollments.filter fun e =>
          e.course_id == courseId && e.user_email == u.email :=
        List.mem_filter.mpr ⟨hx, by simp [hcid, hemail]⟩
      rw [dbSingle_ok_eq h] at hxmem
      have hxe : x = e := List.eq_of_mem_singleton hxmem
      have hse : e.status = "lulus" := hxe ▸ hstat
      unfold certificatesRoute getCertificate certLookup
      rw [h]
      simp only [Except.map, hse]
      exact ⟨_, rfl, pdfRender_ne_nil _⟩

/-- Witness for C1's amended theorem: an enrollment still
`"terdaftar"` draws the 403, and a `"lulus"` enrollment found by the
lookup draws a non-empty PDF response. -/
theorem certificates_eligibility_witness :
    certificatesRoute [⟨1, 5, "a@x.com", "terdaftar"⟩] [] ⟨"a@x.com", none⟩ 5
      "1 Januari 2026" 0 = ⟨403, jsonCT, .jsonMessage "Belum lulus"⟩ ∧
    ∃ bytes, certificatesRoute [⟨1, 5, "a@x.com", "lulus"⟩] [] ⟨"a@x.com", none⟩ 5
      "1 Januari 2026" 0 = ⟨200, pdfCT, .pdf bytes⟩ ∧ bytes ≠ [] := by
  constructor
  · exact (certificates_eligibility [⟨1, 5, "a@x.com", "terdaftar"⟩] [] ⟨"a@x.com", none⟩ 5
      "1 Januari 2026" 0).1 (by decide)
  · exact (certificates_eligibility [⟨1, 5, "a@x.com", "lulus"⟩] [] ⟨"a@x.com", none⟩ 5
      "1 Januari 2026" 0).2 ⟨5, none, "lulus"⟩
      ⟨⟨1, 5, "a@x.com", "lulus"⟩, by decide, rfl, rfl, rfl⟩ rfl

/-- C2: under sequential execution with no database errors (the
existence check sees at most one matching row), a second enroll call
with the same `(course_id, email)` after a successful first call
answers 400 `{message:"Sudah terdaftar"}` and inserts nothing. -/
theorem enroll_duplicate_second_call (db : List Enrollment) (email : String)
    (cid id1 id2 : Nat)
    (hnoerr : (db.filter fun e => e.course_id == cid && e.user_email == email).length ≤ 1)
    (hfirst : (postEnroll db email cid id1).1.status = 200) :
    (postEnroll (postEnroll db email cid id1).2 email cid id2).1 =
      ⟨400, jsonCT, .jsonMessage "Sudah terdaftar"⟩ ∧
    (postEnroll (postEnroll db email cid id1).2 email cid id2).2 =
      (postEnroll db email cid id1).2 := by
  cases hm : maybeSingleData (db.filter fun e => e.course_id == cid && e.user_email == email) with
  | some a => simp [postEnroll, hm] at hfirst
  | none =>
    have hempty : db.filter (fun e => e.course_id == cid && e.user_email == email) = [] :=
      maybeSingleData_eq_nil hm hnoerr
    have hsnd : (postEnroll db email cid id1).2 = db ++ [⟨id1, cid, email, "terdaftar"⟩] := by
      simp [postEnroll, hm]
    rw [hsnd]
    constructor <;>
      simp [postEnroll, maybeSingleData, List.filter_append, hempty]

/-- Witness for C2: enrolling twice in course 5 from an empty table —
the second call answers 400 and leaves the table as the first call
left it. -/
theorem enroll_duplicate_second_call_witness :
    (postEnroll (postEnroll [] "a@x.com" 5 1).2 "a@x.com" 5 2).1 =
      ⟨400, jsonCT, .jsonMessage "Sudah terdaftar"⟩ ∧
    (postEnroll (postEnroll [] "a@x.com" 5 1).2 "a@x.com" 5 2).2 =
      (postEnroll [] "a@x.com" 5 1).2 :=
  enroll_duplicate_second_call [] "a@x.com" 5 1 2 (by decide) rfl

end KursusKu
